import Mathlib

/-!
Verification of the validation engine of `Medical_Study_Extraction`
(`src/main.py`, function `validate_extraction`, lines 89–139).

The model is a shallow embedding of the Python code.  Python/JSON runtime
values are modelled by the inductive type `PyVal`; Python floats are
modelled exactly as rationals (the numeric literals occurring in the
repository and its specification are all exactly representable).  A Python
`dict` produced by `json.loads` is modelled as an association list with
string keys.  Python comparison operators can raise `TypeError` on
unsupported operand pairs, so the comparison functions — and therefore the
validator itself — live in `Except Unit`: `Except.error ()` models a raised
exception, `Except.ok` a normal return.
-/

/-- A Python/JSON runtime value, as produced by `json.loads` in
`process_pdf` and consumed by `validate_extraction`. -/
inductive PyVal where
  | none
  | bool (b : Bool)
  | int (n : Int)
  | float (q : ℚ)
  | str (s : String)
  | list (xs : List PyVal)
  | dict (kvs : List (String × PyVal))

/-- A Python dict with string keys (a JSON object). -/
abbrev PyDict := List (String × PyVal)

/-- The numeric value of a Python number, if the value is one.  The Python type `bool`
is a subclass of `int`, with `True == 1` and `False == 0`. -/
def toRatNum : PyVal → Option ℚ
  | .bool b => some (if b then 1 else 0)
  | .int n => some (n : ℚ)
  | .float q => some q
  | _ => Option.none

mutual

/-- Python `==` on the modelled values.  Numbers compare by value across
`bool`/`int`/`float`; strings structurally; lists elementwise; dicts by
key lookup; every other cross-type pair is unequal. -/
def pyEq : PyVal → PyVal → Bool
  | .none, .none => true
  | .str s, .str t => s == t
  | .list xs, .list ys => pyEqList xs ys
  | .dict xs, .dict ys => xs.length == ys.length && pyEqEntries xs ys
  | a, b =>
    match toRatNum a, toRatNum b with
    | some x, some y => x == y
    | _, _ => false

/-- Python `==` on lists: pointwise, same length. -/
def pyEqList : List PyVal → List PyVal → Bool
  | [], [] => true
  | x :: xs, y :: ys => pyEq x y && pyEqList xs ys
  | _, _ => false

/-- Every entry of the first dict is present (by key) in the second with
an equal value. -/
def pyEqEntries : PyDict → PyDict → Bool
  | [], _ => true
  | (k, v) :: rest, ys =>
    (match List.lookup k ys with
     | some w => pyEq v w
     | Option.none => false) && pyEqEntries rest ys

end

mutual

/-- Python `<`.  Defined for number/number (via exact numeric value),
str/str (lexicographic) and list/list (lexicographic, CPython style);
every other combination raises `TypeError`, modelled as `Except.error ()`. -/
def pyLt : PyVal → PyVal → Except Unit Bool
  | .str s, .str t => .ok (decide (s < t))
  | .list xs, .list ys => pyLtList xs ys
  | a, b =>
    match toRatNum a, toRatNum b with
    | some x, some y => .ok (decide (x < y))
    | _, _ => .error ()

/-- CPython list `<`: the first pair of unequal items decides via `<`
(which may raise); a list that is a proper prefix is smaller. -/
def pyLtList : List PyVal → List PyVal → Except Unit Bool
  | [], [] => .ok false
  | [], _ :: _ => .ok true
  | _ :: _, [] => .ok false
  | x :: xs, y :: ys => if pyEq x y then pyLtList xs ys else pyLt x y

end

mutual

/-- Python `<=`, with the same domain and `TypeError` behaviour as `pyLt`. -/
def pyLe : PyVal → PyVal → Except Unit Bool
  | .str s, .str t => .ok (decide (s ≤ t))
  | .list xs, .list ys => pyLeList xs ys
  | a, b =>
    match toRatNum a, toRatNum b with
    | some x, some y => .ok (decide (x ≤ y))
    | _, _ => .error ()

/-- CPython list `<=`: the first pair of unequal items decides via `<=`;
otherwise lengths decide. -/
def pyLeList : List PyVal → List PyVal → Except Unit Bool
  | [], [] => .ok true
  | [], _ :: _ => .ok true
  | _ :: _, [] => .ok false
  | x :: xs, y :: ys => if pyEq x y then pyLeList xs ys else pyLe x y

end

/-- Python `a > b` (for the modelled values, `a > b` holds, raises and
fails exactly as `b < a`). -/
def pyGt (a b : PyVal) : Except Unit Bool := pyLt b a

/-- The Python chained comparison `a <= b <= c`: evaluate `a <= b` first
and short-circuit when it is false. -/
def pyChainLe (a b c : PyVal) : Except Unit Bool := do
  let x ← pyLe a b
  if x then pyLe b c else pure false

/-- Python `d.get(k)`: the value stored under `k`, or `None` when the key
is absent (absent and explicit-`null` are indistinguishable afterwards). -/
def pyGet (d : PyDict) (k : String) : PyVal :=
  (List.lookup k d).getD .none

/-- Python `k in d` for a dict. -/
def hasKey (d : PyDict) (k : String) : Bool :=
  (List.lookup k d).isSome

/-- Python `v is None`. -/
def isNone : PyVal → Bool
  | .none => true
  | _ => false

/-- Python `isinstance(v, int)`: true for `int` and for `bool` (a
subclass of `int`), false for everything else — in particular for floats. -/
def isinstance_int : PyVal → Bool
  | .bool _ => true
  | .int _ => true
  | _ => false

/-- Python `isinstance(v, (int, float))`. -/
def isinstance_num : PyVal → Bool
  | .bool _ => true
  | .int _ => true
  | .float _ => true
  | _ => false

/-- Python `isinstance(v, dict)`. -/
def isinstance_dict : PyVal → Bool
  | .dict _ => true
  | _ => false

/-- The integer value of a Python `int` (with `True = 1`, `False = 0`);
only used after `isinstance_int` has succeeded. -/
def intVal : PyVal → Int
  | .int n => n
  | .bool b => if b then 1 else 0
  | _ => 0

/-- The list `REQUIRED_FIELDS` of `validate_extraction` (src/main.py lines 92–99). -/
def REQUIRED_FIELDS : List String :=
  ["title", "study_design", "population", "sample_size", "outcome", "effect_size"]

/-- The effect-size sub-field names checked in step 4 (src/main.py line 119). -/
def EFFECT_KEYS : List String := ["type", "value", "lower_ci", "upper_ci"]

/-- Step 1 of `validate_extraction` (lines 102–104): one violation per
required top-level key absent from the record, in `REQUIRED_FIELDS` order. -/
def missingFieldErrors (data : PyDict) : List String :=
  (REQUIRED_FIELDS.filter (fun f => ! hasKey data f)).map (fun f => "Missing field: " ++ f)

/-- Step 2 of `validate_extraction` (lines 107–112): the sample-size
type/range check; `None` skips both checks. -/
def sampleSizeErrors (data : PyDict) : List String :=
  if isNone (pyGet data "sample_size") then []
  else if ! isinstance_int (pyGet data "sample_size") then
    ["sample_size must be an integer or null"]
  else if intVal (pyGet data "sample_size") ≤ 0 then ["sample_size must be > 0"]
  else []

/-- Step 4 (lines 119–121): one violation per absent effect-size sub-field,
in `EFFECT_KEYS` order. -/
def effectMissingErrors (e : PyDict) : List String :=
  (EFFECT_KEYS.filter (fun k => ! hasKey e k)).map (fun k => "Missing effect_size field: " ++ k)

/-- Step 5 (lines 123–129): non-null, non-numeric `value`/`lower_ci`/`upper_ci`
each yield a type violation, in that order. -/
def effectNumericErrors (e : PyDict) : List String :=
  (([("value", pyGet e "value"), ("lower_ci", pyGet e "lower_ci"),
     ("upper_ci", pyGet e "upper_ci")] : List (String × PyVal)).filter
    (fun p => ! isNone p.2 && ! isinstance_num p.2)).map
    (fun p => "effect_size." ++ p.1 ++ " must be numeric or null")

/-- Step 6 (lines 131–133): when both CI bounds are non-null, evaluate the
Python comparison `lower > upper` (which may raise `TypeError`). -/
def ciOrderingCheck (lower upper : PyVal) : Except Unit (List String) :=
  if ! isNone lower && ! isNone upper then
    match pyGt lower upper with
    | .error u => .error u
    | .ok b => .ok (if b then ["lower_ci cannot be greater than upper_ci"] else [])
  else .ok []

/-- Step 7 (lines 135–137): when `value` and both CI bounds are non-null,
evaluate the Python chained comparison `lower <= value <= upper`. -/
def valueRangeCheck (value lower upper : PyVal) : Except Unit (List String) :=
  if ! isNone value && ! isNone lower && ! isNone upper then
    match pyChainLe lower value upper with
    | .error u => .error u
    | .ok b => .ok (if b then [] else ["effect_size.value must be between lower_ci and upper_ci"])
  else .ok []

/-- Steps 4–7, run on a dict-valued `effect_size` (the `else` branch of
line 118); an exception in step 6 or 7 aborts the whole call.  The local
variables `value`, `lower`, `upper` of the source (lines 123–125) are the
three `pyGet` applications. -/
def effectChecks (e : PyDict) : Except Unit (List String) :=
  match ciOrderingCheck (pyGet e "lower_ci") (pyGet e "upper_ci") with
  | .error u => .error u
  | .ok errors5 =>
    match valueRangeCheck (pyGet e "value") (pyGet e "lower_ci") (pyGet e "upper_ci") with
    | .error u => .error u
    | .ok errors6 =>
      .ok (effectMissingErrors e ++ effectNumericErrors e ++ errors5 ++ errors6)

/-- The engine `validate_extraction` (src/main.py lines 89–139): the violation list
accumulated over the fixed check sequence, or `Except.error ()` when a
comparison in steps 6–7 raises `TypeError`. -/
def validate_extraction (data : PyDict) : Except Unit (List String) :=
  let errors12 := missingFieldErrors data ++ sampleSizeErrors data
  match pyGet data "effect_size" with
  | .dict e =>
    (match effectChecks e with
     | .error u => .error u
     | .ok es => .ok (errors12 ++ es))
  | _ => .ok (errors12 ++ ["effect_size must be an object"])

/-- The six possible step-1 messages, in emission order. -/
def MF_MSGS : List String := REQUIRED_FIELDS.map (fun f => "Missing field: " ++ f)

/-- The two possible step-2 messages (mutually exclusive), in check order. -/
def SS_MSGS : List String :=
  ["sample_size must be an integer or null", "sample_size must be > 0"]

/-- The four possible step-4 messages, in emission order. -/
def EM_MSGS : List String := EFFECT_KEYS.map (fun k => "Missing effect_size field: " ++ k)

/-- The three possible step-5 messages, in emission order. -/
def EN_MSGS : List String :=
  ["effect_size.value must be numeric or null", "effect_size.lower_ci must be numeric or null",
   "effect_size.upper_ci must be numeric or null"]

/-- Every message emitted past step 2, in emission order: the step-3 shape
message, then steps 4–7. -/
def TAIL_MSGS : List String :=
  ["effect_size must be an object"] ++ EM_MSGS ++ EN_MSGS ++
    ["lower_ci cannot be greater than upper_ci"] ++
    ["effect_size.value must be between lower_ci and upper_ci"]

/-- Every message `validate_extraction` can emit, listed in the order of
the fixed check sequence. -/
def ALL_MSGS : List String := MF_MSGS ++ SS_MSGS ++ TAIL_MSGS

/-- The position of a message in the fixed check sequence. -/
def msgRank (m : String) : ℕ := ALL_MSGS.indexOf m

/-- The nine messages of the nested checks (steps 4–7), which must not be
emitted when `effect_size` is not a dict. -/
def nestedCheckMsgs : List String :=
  EM_MSGS ++ EN_MSGS ++
    ["lower_ci cannot be greater than upper_ci",
     "effect_size.value must be between lower_ci and upper_ci"]

/-- A record whose CI bounds hold a string and a number: the comparison
`lower > upper` on line 132 is `"a" > 2`, a Python `TypeError`. -/
def c1Record : PyDict :=
  [("title", .str "T"), ("study_design", .str "D"), ("population", .str "P"),
   ("sample_size", .int 10), ("outcome", .str "O"),
   ("effect_size", .dict [("type", PyVal.none), ("value", PyVal.none),
                          ("lower_ci", .str "a"), ("upper_ci", .int 2)])]

/-- A record with all six keys present, every scalar field conforming and
`effect_size` explicitly `null`. -/
def c2Record : PyDict :=
  [("title", .str "T"), ("study_design", .str "D"), ("population", .str "P"),
   ("sample_size", .int 30), ("outcome", .str "O"), ("effect_size", PyVal.none)]

/-- A record with `lower_ci = 5 > upper_ci = 2` and a string `value`: step 6
would emit the ordering violation, but in step 7 the comparison `lower <= value` is
`5 <= "x"`, a Python `TypeError`. -/
def c7Record : PyDict :=
  [("title", .str "T"), ("study_design", .str "D"), ("population", .str "P"),
   ("sample_size", .int 10), ("outcome", .str "O"),
   ("effect_size", .dict [("type", PyVal.none), ("value", .str "x"),
                          ("lower_ci", .int 5), ("upper_ci", .int 2)])]

/-- The §8 end-to-end record with `sample_size: -5` (effect-size values
`1.5`, `1.0`, `2.0` modelled exactly as rationals). -/
def c8NegRecord : PyDict :=
  [("title", .str "T"), ("study_design", .str "D"), ("population", .str "P"),
   ("sample_size", .int (-5)), ("outcome", .str "O"),
   ("effect_size", .dict [("type", .str "OR"), ("value", .float (mkRat 3 2)),
                          ("lower_ci", .float 1), ("upper_ci", .float 2)])]

/-- The §8 end-to-end record with `sample_size: 30`. -/
def c8PosRecord : PyDict :=
  [("title", .str "T"), ("study_design", .str "D"), ("population", .str "P"),
   ("sample_size", .int 30), ("outcome", .str "O"),
   ("effect_size", .dict [("type", .str "OR"), ("value", .float (mkRat 3 2)),
                          ("lower_ci", .float 1), ("upper_ci", .float 2)])]

/-- A record with `sample_size = -5` whose CI bounds make line 132 raise
`TypeError`, so no violation list is ever returned. -/
def c8RaiseRecord : PyDict :=
  [("title", .str "T"), ("study_design", .str "D"), ("population", .str "P"),
   ("sample_size", .int (-5)), ("outcome", .str "O"),
   ("effect_size", .dict [("type", PyVal.none), ("value", PyVal.none),
                          ("lower_ci", .str "a"), ("upper_ci", .int 2)])]

/-- A record with a floating-point `sample_size` whose CI bounds make
line 132 raise `TypeError`, so no violation list is ever returned. -/
def c10RaiseRecord : PyDict :=
  [("sample_size", .float 30),
   ("effect_size", .dict [("type", PyVal.none), ("value", PyVal.none),
                          ("lower_ci", .str "a"), ("upper_ci", .int 2)])]

/-- The §8 end-to-end record that lacks `outcome` and has the string
`"high"` as `effect_size`. -/
def c5Record : PyDict :=
  [("title", .str "T"), ("study_design", .str "D"), ("population", .str "P"),
   ("sample_size", .int 30), ("effect_size", .str "high")]

/-- The violation list `validate_extraction` returns on `c5Record`. -/
def c5List : List String :=
  ["Missing field: outcome", "effect_size must be an object"]

/-- Case analysis on a normally-returning run of `validate_extraction`:
either `effect_size` is not a dict and the result is steps 1–3, or it is a
dict, steps 6 and 7 returned normally, and the result is steps 1–2 then 4–7. -/
theorem validate_ok_cases (data : PyDict) (l : List String)
    (h : validate_extraction data = .ok l) :
    (isinstance_dict (pyGet data "effect_size") = false ∧
      l = missingFieldErrors data ++ sampleSizeErrors data ++ ["effect_size must be an object"]) ∨
    (∃ e e5 e6, pyGet data "effect_size" = PyVal.dict e ∧
      ciOrderingCheck (pyGet e "lower_ci") (pyGet e "upper_ci") = .ok e5 ∧
      valueRangeCheck (pyGet e "value") (pyGet e "lower_ci") (pyGet e "upper_ci") = .ok e6 ∧
      l = missingFieldErrors data ++ sampleSizeErrors data ++
          (effectMissingErrors e ++ effectNumericErrors e ++ e5 ++ e6)) := by
  unfold validate_extraction at h
  split at h
  case _ e heq =>
    right
    unfold effectChecks at h
    split at h
    · exact absurd h (by simp)
    case _ es hec =>
      split at hec
      · exact absurd hec (by simp)
      case _ e5 h5 =>
        split at hec
        · exact absurd hec (by simp)
        case _ e6 h6 =>
          refine ⟨e, e5, e6, heq, h5, h6, ?_⟩
          simp only [Except.ok.injEq] at h hec
          subst hec
          simp [← h]
  case _ hne =>
    left
    constructor
    · revert hne
      cases pyGet data "effect_size" <;> simp [isinstance_dict]
    · simp only [Except.ok.injEq] at h
      simp [← h]

/-- When `effect_size` is not a dict, `validate_extraction` returns
normally with steps 1–2 followed by the shape violation. -/
theorem validate_not_dict (data : PyDict)
    (h : isinstance_dict (pyGet data "effect_size") = false) :
    validate_extraction data =
      .ok (missingFieldErrors data ++ sampleSizeErrors data ++ ["effect_size must be an object"]) := by
  unfold validate_extraction
  split
  case _ e heq => rw [heq] at h; exact absurd h (by simp [isinstance_dict])
  case _ => simp

/-- When `effect_size` is a dict and steps 6 and 7 return normally,
`validate_extraction` returns the concatenation of all stages. -/
theorem validate_dict_eq (data : PyDict) (e : PyDict) (e5 e6 : List String)
    (hE : pyGet data "effect_size" = PyVal.dict e)
    (h5 : ciOrderingCheck (pyGet e "lower_ci") (pyGet e "upper_ci") = .ok e5)
    (h6 : valueRangeCheck (pyGet e "value") (pyGet e "lower_ci") (pyGet e "upper_ci") = .ok e6) :
    validate_extraction data =
      .ok (missingFieldErrors data ++ sampleSizeErrors data ++
        (effectMissingErrors e ++ effectNumericErrors e ++ e5 ++ e6)) := by
  unfold validate_extraction effectChecks
  rw [hE]
  simp [h5, h6]

/-- When `effect_size` is a dict and step 6 raises, the whole call raises. -/
theorem validate_dict_error (data : PyDict) (e : PyDict)
    (hE : pyGet data "effect_size" = PyVal.dict e)
    (h5 : ciOrderingCheck (pyGet e "lower_ci") (pyGet e "upper_ci") = .error ()) :
    validate_extraction data = .error () := by
  unfold validate_extraction effectChecks
  rw [hE]
  simp [h5]

/-- A key that is absent reads back as `None` through `d.get`. -/
theorem pyGet_of_hasKey_false (d : PyDict) (k : String) (h : hasKey d k = false) :
    pyGet d k = PyVal.none := by
  unfold hasKey at h
  unfold pyGet
  cases hl : List.lookup k d with
  | none => rfl
  | some v => rw [hl] at h; simp at h

/-- Step 1 emits a sublist of the six messages, in order. -/
theorem missingFieldErrors_sublist (d : PyDict) :
    List.Sublist (missingFieldErrors d) MF_MSGS :=
  (List.filter_sublist REQUIRED_FIELDS).map _

/-- Step 2 emits a sublist of the two sample-size messages. -/
theorem sampleSizeErrors_sublist (d : PyDict) :
    List.Sublist (sampleSizeErrors d) SS_MSGS := by
  unfold sampleSizeErrors SS_MSGS
  split
  · exact List.nil_sublist _
  · split
    · exact List.Sublist.cons₂ _ (List.nil_sublist _)
    · split
      · exact (List.Sublist.cons₂ _ (List.nil_sublist _)).cons _
      · exact List.nil_sublist _

/-- Step 4 emits a sublist of the four sub-field messages, in order. -/
theorem effectMissingErrors_sublist (e : PyDict) :
    List.Sublist (effectMissingErrors e) EM_MSGS :=
  (List.filter_sublist EFFECT_KEYS).map _

/-- Step 5 emits a sublist of the three numeric-type messages, in order. -/
theorem effectNumericErrors_sublist (e : PyDict) :
    List.Sublist (effectNumericErrors e) EN_MSGS :=
  (List.filter_sublist _).map _

/-- Step 6 emits at most the ordering message. -/
theorem ciOrderingCheck_ok_sublist (lower upper : PyVal) (es : List String)
    (h : ciOrderingCheck lower upper = .ok es) :
    List.Sublist es ["lower_ci cannot be greater than upper_ci"] := by
  unfold ciOrderingCheck at h
  split at h
  · split at h
    · exact absurd h (by simp)
    · simp only [Except.ok.injEq] at h
      subst h
      split
      · exact List.Sublist.refl _
      · exact List.nil_sublist _
  · simp only [Except.ok.injEq] at h
    subst h
    exact List.nil_sublist _

/-- Step 7 emits at most the value-in-range message. -/
theorem valueRangeCheck_ok_sublist (value lower upper : PyVal) (es : List String)
    (h : valueRangeCheck value lower upper = .ok es) :
    List.Sublist es ["effect_size.value must be between lower_ci and upper_ci"] := by
  unfold valueRangeCheck at h
  split at h
  · split at h
    · exact absurd h (by simp)
    · simp only [Except.ok.injEq] at h
      subst h
      split
      · exact List.nil_sublist _
      · exact List.Sublist.refl _
  · simp only [Except.ok.injEq] at h
    subst h
    exact List.nil_sublist _

/-- Any normally-returned violation list is a sublist of `ALL_MSGS`: every
element is one of the eighteen messages, and they appear in the order of
the fixed check sequence. -/
theorem validate_ok_sublist (data : PyDict) (l : List String)
    (h : validate_extraction data = .ok l) : List.Sublist l ALL_MSGS := by
  have hTail1 : List.Sublist ["effect_size must be an object"] TAIL_MSGS :=
    List.Sublist.cons₂ _ (List.nil_sublist _)
  rcases validate_ok_cases data l h with ⟨_, hl⟩ | ⟨e, e5, e6, _, h5, h6, hl⟩
  · subst hl
    simp only [List.append_assoc]
    show List.Sublist _ (MF_MSGS ++ (SS_MSGS ++ TAIL_MSGS))
    exact List.Sublist.append (missingFieldErrors_sublist data)
      (List.Sublist.append (sampleSizeErrors_sublist data) hTail1)
  · subst hl
    simp only [List.append_assoc]
    show List.Sublist _ (MF_MSGS ++ (SS_MSGS ++ TAIL_MSGS))
    refine List.Sublist.append (missingFieldErrors_sublist data)
      (List.Sublist.append (sampleSizeErrors_sublist data) ?_)
    have h56 := List.Sublist.append (ciOrderingCheck_ok_sublist _ _ _ h5)
      (valueRangeCheck_ok_sublist _ _ _ _ h6)
    have hrest := List.Sublist.append (effectMissingErrors_sublist e)
      (List.Sublist.append (effectNumericErrors_sublist e) h56)
    exact hrest.cons _

/-- Step 1 emits the missing-field message for a required field exactly
when that key is absent — independently of every other field. -/
theorem mem_missingFieldErrors_iff (d : PyDict) (f : String) (hf : f ∈ REQUIRED_FIELDS) :
    (("Missing field: " ++ f) ∈ missingFieldErrors d) ↔ hasKey d f = false := by
  unfold missingFieldErrors
  simp only [List.mem_map, List.mem_filter]
  constructor
  · rintro ⟨g, ⟨hg, hkey⟩, heq⟩
    have hinj : ∀ g ∈ REQUIRED_FIELDS, ∀ f ∈ REQUIRED_FIELDS,
        ("Missing field: " ++ g = "Missing field: " ++ f) → g = f := by decide
    have : g = f := hinj g hg f hf heq
    subst this
    simpa using hkey
  · intro hk
    exact ⟨f, ⟨hf, by simp [hk]⟩, rfl⟩

/-- Step 2 emits the range message exactly when `sample_size` is a
non-null integer that is `≤ 0` — independently of every other field. -/
theorem mem_sampleSizeErrors_range_iff (d : PyDict) :
    ("sample_size must be > 0" ∈ sampleSizeErrors d) ↔
      (isNone (pyGet d "sample_size") = false ∧ isinstance_int (pyGet d "sample_size") = true ∧
        intVal (pyGet d "sample_size") ≤ 0) := by
  unfold sampleSizeErrors
  split
  case _ hn => simp_all
  case _ hn =>
    split
    case _ hi =>
      constructor
      · intro hmem
        simp at hmem
      · rintro ⟨-, hint, -⟩
        simp_all
    case _ hi =>
      split
      case _ hle => simp_all
      case _ hle => simp_all

/-- Step 2 emits the type message exactly when `sample_size` is non-null
and not an integer. -/
theorem mem_sampleSizeErrors_type_iff (d : PyDict) :
    ("sample_size must be an integer or null" ∈ sampleSizeErrors d) ↔
      (isNone (pyGet d "sample_size") = false ∧
        isinstance_int (pyGet d "sample_size") = false) := by
  unfold sampleSizeErrors
  split
  case _ hn => simp_all
  case _ hn =>
    split
    case _ hi => simp_all
    case _ hi =>
      split
      case _ hle =>
        constructor
        · intro hmem
          simp at hmem
        · rintro ⟨-, hint⟩
          simp_all
      case _ hle => simp_all

/-- A record with all six required keys present produces no step-1
violations. -/
theorem missingFieldErrors_eq_nil (d : PyDict)
    (h : ∀ f ∈ REQUIRED_FIELDS, hasKey d f = true) :
    missingFieldErrors d = [] := by
  unfold missingFieldErrors
  rw [List.map_eq_nil_iff, List.filter_eq_nil_iff]
  intro f hf
  simp [h f hf]

/-- A `None` or positive-integer `sample_size` produces no step-2
violations. -/
theorem sampleSizeErrors_eq_nil (d : PyDict)
    (h : isNone (pyGet d "sample_size") = true ∨
      (isinstance_int (pyGet d "sample_size") = true ∧ 0 < intVal (pyGet d "sample_size"))) :
    sampleSizeErrors d = [] := by
  unfold sampleSizeErrors
  rcases h with hn | ⟨hi, hpos⟩
  · simp [hn]
  · have hn : isNone (pyGet d "sample_size") = false := by
      cases hE : pyGet d "sample_size" <;> simp_all [isNone, isinstance_int]
    have hgt : ¬ (intVal (pyGet d "sample_size") ≤ 0) := by omega
    simp [hn, hi, hgt]

/-- Numeric values (`bool`, `int`, `float`) have a numeric interpretation. -/
theorem toRatNum_isSome_of_num (v : PyVal) (h : isinstance_num v = true) :
    ∃ q, toRatNum v = some q := by
  cases v <;> simp_all [isinstance_num, toRatNum]

/-- Python `<=` on two numbers compares their exact numeric values. -/
theorem pyLe_num (a b : PyVal) (x y : ℚ) (ha : toRatNum a = some x)
    (hb : toRatNum b = some y) : pyLe a b = .ok (decide (x ≤ y)) := by
  cases a <;> cases b <;> simp_all [pyLe, toRatNum]

/-- Python `>` on two numbers compares their exact numeric values. -/
theorem pyGt_num (a b : PyVal) (x y : ℚ) (ha : toRatNum a = some x)
    (hb : toRatNum b = some y) : pyGt a b = .ok (decide (y < x)) := by
  cases a <;> cases b <;> simp_all [pyGt, pyLt, toRatNum]

/-- The chained comparison on three numbers is the conjunction of the two
exact numeric comparisons. -/
theorem pyChainLe_num (a b c : PyVal) (x y z : ℚ) (ha : toRatNum a = some x)
    (hb : toRatNum b = some y) (hc : toRatNum c = some z) :
    pyChainLe a b c = .ok (decide (x ≤ y) && decide (y ≤ z)) := by
  unfold pyChainLe
  rw [pyLe_num a b x y ha hb, pyLe_num b c y z hb hc]
  cases hxy : decide (x ≤ y) <;> rfl

/-- A floating-point `sample_size` always yields exactly the step-2 type
message: `isinstance(v, int)` is false for Python floats. -/
theorem sampleSizeErrors_float (d : PyDict) (q : ℚ)
    (h : pyGet d "sample_size" = PyVal.float q) :
    sampleSizeErrors d = ["sample_size must be an integer or null"] := by
  simp [sampleSizeErrors, h, isNone, isinstance_int]

/-- The eighteen possible messages occur in `ALL_MSGS` in rank order. -/
theorem allMsgs_pairwise :
    List.Pairwise (fun a b => msgRank a ≤ msgRank b) ALL_MSGS := by decide

/-- C1: the claim says `validate_extraction` returns a violation list and
never raises, for every key-value record, in particular when effect-size
sub-fields hold non-numeric non-null values that feed the comparisons.
The code violates this: on `c1Record` (all six keys present,
`lower_ci = "a"`, `upper_ci = 2`) line 132 evaluates the Python comparison
`"a" > 2`, which raises `TypeError`, so no violation list is returned. -/
theorem C1_raises_on_nonnumeric_ci_bound :
    validate_extraction c1Record = Except.error () := rfl

/-- C2 (counterexample): the claim says a fully-keyed record with
`effect_size = null` and conforming scalars yields the empty violation
list.  On `c2Record` the code instead emits the shape violation, because
`isinstance(None, dict)` is false. -/
theorem C2_counterexample :
    validate_extraction c2Record = Except.ok ["effect_size must be an object"] ∧
      validate_extraction c2Record ≠ Except.ok [] := by
  refine ⟨rfl, ?_⟩
  intro hcontra
  rw [show validate_extraction c2Record = Except.ok ["effect_size must be an object"] from rfl]
    at hcontra
  simp at hcontra

/-- C2 (amended): a record with all six required keys present,
`effect_size = null`, and a conforming `sample_size` yields exactly one
violation — the shape violation — not the empty list. -/
theorem C2_null_effect_size_shape_violation (data : PyDict)
    (hkeys : ∀ f ∈ REQUIRED_FIELDS, hasKey data f = true)
    (heff : pyGet data "effect_size" = PyVal.none)
    (hss : isNone (pyGet data "sample_size") = true ∨
      (isinstance_int (pyGet data "sample_size") = true ∧
        0 < intVal (pyGet data "sample_size"))) :
    validate_extraction data = .ok ["effect_size must be an object"] := by
  have h1 := missingFieldErrors_eq_nil data hkeys
  have h2 := sampleSizeErrors_eq_nil data hss
  have h3 : isinstance_dict (pyGet data "effect_size") = false := by
    rw [heff]; rfl
  have h4 := validate_not_dict data h3
  rw [h1, h2] at h4
  exact h4

/-- C2 (witness): the amended statement at the concrete record. -/
theorem C2_witness :
    validate_extraction c2Record = Except.ok ["effect_size must be an object"] :=
  C2_null_effect_size_shape_violation c2Record (by decide) rfl (Or.inr ⟨rfl, by decide⟩)

/-- C3: when the key `effect_size` is absent, the step-1 missing-field
violation for `effect_size` AND the step-3 shape violation are both
emitted: `data.get` turns absence into `None`, which fails
`isinstance(effect, dict)`. -/
theorem C3_absent_effect_size_double_violation (data : PyDict)
    (h : hasKey data "effect_size" = false) :
    ∃ l, validate_extraction data = .ok l ∧ "Missing field: effect_size" ∈ l ∧
      "effect_size must be an object" ∈ l := by
  have hget : pyGet data "effect_size" = PyVal.none := pyGet_of_hasKey_false data _ h
  have hnd : isinstance_dict (pyGet data "effect_size") = false := by rw [hget]; rfl
  refine ⟨_, validate_not_dict data hnd, ?_, ?_⟩
  · have hmem : ("Missing field: " ++ "effect_size") ∈ missingFieldErrors data :=
      (mem_missingFieldErrors_iff data "effect_size" (by decide)).mpr h
    exact List.mem_append_left _ (List.mem_append_left _ hmem)
  · exact List.mem_append_right _ (by simp)

/-- C3 (witness): the empty record lacks `effect_size`, and its violation
list contains both messages. -/
theorem C3_witness :
    ∃ l, validate_extraction [] = Except.ok l ∧ "Missing field: effect_size" ∈ l ∧
      "effect_size must be an object" ∈ l :=
  C3_absent_effect_size_double_violation [] rfl

/-- C4: whenever `effect_size` is not a dict (absent, null, string,
number, …), the returned list contains the shape violation and none of
the nine nested-check messages of steps 4–7. -/
theorem C4_nonmapping_skips_nested_checks (data : PyDict)
    (h : isinstance_dict (pyGet data "effect_size") = false) :
    ∃ l, validate_extraction data = .ok l ∧ "effect_size must be an object" ∈ l ∧
      ∀ m ∈ nestedCheckMsgs, m ∉ l := by
  refine ⟨_, validate_not_dict data h, List.mem_append_right _ (by simp), ?_⟩
  intro m hm hmem
  have hd1 : ∀ x ∈ nestedCheckMsgs, x ∉ MF_MSGS := by decide
  have hd2 : ∀ x ∈ nestedCheckMsgs, x ∉ SS_MSGS := by decide
  have hd3 : ∀ x ∈ nestedCheckMsgs, x ≠ "effect_size must be an object" := by decide
  rcases List.mem_append.mp hmem with h12 | h3
  · rcases List.mem_append.mp h12 with h1 | h2
    · exact hd1 m hm ((missingFieldErrors_sublist data).subset h1)
    · exact hd2 m hm ((sampleSizeErrors_sublist data).subset h2)
  · exact hd3 m hm (List.mem_singleton.mp h3)

/-- C4 (witness): the §8 scenario `effect_size: "high"`. -/
theorem C4_witness :
    ∃ l, validate_extraction [("effect_size", PyVal.str "high")] = Except.ok l ∧
      "effect_size must be an object" ∈ l ∧ ∀ m ∈ nestedCheckMsgs, m ∉ l :=
  C4_nonmapping_skips_nested_checks [("effect_size", PyVal.str "high")] rfl

/-- C6: the validation engine is a pure function in the embedding — the
record is consumed immutably and two runs on the same record return the
same result, so any two normally-returned violation lists are identical. -/
theorem C6_pure_idempotent (data : PyDict) (l l' : List String)
    (h : validate_extraction data = .ok l) (h' : validate_extraction data = .ok l') :
    l = l' ∧ validate_extraction data = validate_extraction data := by
  refine ⟨?_, rfl⟩
  have hh := h.symm.trans h'
  injection hh

/-- C6 (witness): two runs on the §8 fully-conforming record both return
the empty list. -/
theorem C6_witness :
    ([] : List String) = [] ∧ validate_extraction c8PosRecord = validate_extraction c8PosRecord :=
  C6_pure_idempotent c8PosRecord [] [] rfl rfl

/-- A numeric value is not `None`. -/
theorem isNone_eq_false_of_num (v : PyVal) (h : isinstance_num v = true) :
    isNone v = false := by
  cases v <;> simp_all [isinstance_num, isNone]

/-- Every element of a returned violation list stems from step 1, step 2,
or from the shape/nested checks (whose messages all lie in `TAIL_MSGS`). -/
theorem validate_ok_mem_split (data : PyDict) (l : List String)
    (h : validate_extraction data = .ok l) (x : String) (hx : x ∈ l) :
    x ∈ missingFieldErrors data ∨ x ∈ sampleSizeErrors data ∨ x ∈ TAIL_MSGS := by
  have hEMtail : ∀ y ∈ EM_MSGS, y ∈ TAIL_MSGS := by decide
  have hENtail : ∀ y ∈ EN_MSGS, y ∈ TAIL_MSGS := by decide
  have hciTail : "lower_ci cannot be greater than upper_ci" ∈ TAIL_MSGS := by decide
  have hvrTail : "effect_size.value must be between lower_ci and upper_ci" ∈ TAIL_MSGS := by
    decide
  have hshapeTail : "effect_size must be an object" ∈ TAIL_MSGS := by decide
  rcases validate_ok_cases data l h with ⟨-, hl⟩ | ⟨e, e5, e6, -, h5, h6, hl⟩ <;> subst hl
  · rcases List.mem_append.mp hx with h12 | h3
    · rcases List.mem_append.mp h12 with h1 | h2
      · exact Or.inl h1
      · exact Or.inr (Or.inl h2)
    · right; right
      simp only [List.mem_singleton] at h3
      rw [h3]; exact hshapeTail
  · rcases List.mem_append.mp hx with h12 | h36
    · rcases List.mem_append.mp h12 with h1 | h2
      · exact Or.inl h1
      · exact Or.inr (Or.inl h2)
    · right; right
      rcases List.mem_append.mp h36 with h35 | h6'
      · rcases List.mem_append.mp h35 with h34 | h5'
        · rcases List.mem_append.mp h34 with h3 | h4
          · exact hEMtail x ((effectMissingErrors_sublist e).subset h3)
          · exact hENtail x ((effectNumericErrors_sublist e).subset h4)
        · have := (ciOrderingCheck_ok_sublist _ _ _ h5).subset h5'
          simp only [List.mem_singleton] at this
          rw [this]; exact hciTail
      · have := (valueRangeCheck_ok_sublist _ _ _ _ h6).subset h6'
        simp only [List.mem_singleton] at this
        rw [this]; exact hvrTail

/-- A value with a numeric interpretation is not `None`. -/
theorem isNone_eq_false_of_ratNum (v : PyVal) (q : ℚ) (h : toRatNum v = some q) :
    isNone v = false := by
  cases v <;> simp_all [toRatNum, isNone]

/-- Step 7 on three numbers returns normally, with the violation exactly
when the chained comparison fails. -/
theorem valueRangeCheck_num_ok (lower value upper : PyVal) (x y z : ℚ)
    (hl : toRatNum lower = some x) (hv : toRatNum value = some y)
    (hu : toRatNum upper = some z) :
    valueRangeCheck value lower upper =
      .ok (if (decide (x ≤ y) && decide (y ≤ z)) = true then []
           else ["effect_size.value must be between lower_ci and upper_ci"]) := by
  unfold valueRangeCheck
  rw [isNone_eq_false_of_ratNum _ _ hl, isNone_eq_false_of_ratNum _ _ hv,
    isNone_eq_false_of_ratNum _ _ hu, pyChainLe_num lower value upper x y z hl hv hu]
  simp

/-- C7 (counterexample): the claim says the CI-ordering violation is
emitted for `lower_ci = 5, upper_ci = 2` regardless of `value` — including
non-numeric values.  On `c7Record` (`value = "x"`) step 6 would emit the
violation, but step 7 then evaluates `5 <= "x"`, a Python `TypeError`, so
no violation list is returned at all. -/
theorem C7_counterexample : validate_extraction c7Record = Except.error () := rfl

/-- C7 (amended): for `lower_ci = 5, upper_ci = 2` the CI-ordering
violation is emitted whenever `value` is null or numeric (the cases in
which the call returns normally). -/
theorem C7_ci_ordering_violation (data : PyDict) (e : PyDict)
    (hE : pyGet data "effect_size" = PyVal.dict e)
    (hlo : pyGet e "lower_ci" = PyVal.int 5)
    (hup : pyGet e "upper_ci" = PyVal.int 2)
    (hv : isNone (pyGet e "value") = true ∨ isinstance_num (pyGet e "value") = true) :
    ∃ l, validate_extraction data = .ok l ∧
      "lower_ci cannot be greater than upper_ci" ∈ l := by
  have h5 : ciOrderingCheck (pyGet e "lower_ci") (pyGet e "upper_ci") =
      .ok ["lower_ci cannot be greater than upper_ci"] := by
    rw [hlo, hup]; rfl
  have h6 : ∃ e6, valueRangeCheck (pyGet e "value") (pyGet e "lower_ci")
      (pyGet e "upper_ci") = .ok e6 := by
    rcases hv with hn | hnum
    · refine ⟨[], ?_⟩
      unfold valueRangeCheck
      rw [hn]
      rfl
    · obtain ⟨q, hq⟩ := toRatNum_isSome_of_num _ hnum
      exact ⟨_, valueRangeCheck_num_ok _ _ _ 5 q 2 (by rw [hlo]; rfl) hq (by rw [hup]; rfl)⟩
  obtain ⟨e6, h6⟩ := h6
  refine ⟨_, validate_dict_eq data e _ e6 hE h5 h6, ?_⟩
  simp [List.mem_append]

/-- C7 (witness): the amended statement at a concrete record with null
`value`. -/
theorem C7_witness :
    ∃ l, validate_extraction
        [("effect_size", PyVal.dict [("lower_ci", PyVal.int 5), ("upper_ci", PyVal.int 2)])] =
          Except.ok l ∧
      "lower_ci cannot be greater than upper_ci" ∈ l :=
  C7_ci_ordering_violation
    [("effect_size", PyVal.dict [("lower_ci", PyVal.int 5), ("upper_ci", PyVal.int 2)])]
    [("lower_ci", PyVal.int 5), ("upper_ci", PyVal.int 2)]
    rfl rfl rfl (Or.inl rfl)

/-- C8 (counterexample): the claim says every record with a non-positive
integer `sample_size` yields an output containing the range violation.  On
`c8RaiseRecord` (`sample_size = -5`, CI bounds `"a"` and `2`) line 132
raises `TypeError`, so no violation list is returned at all. -/
theorem C8_counterexample :
    pyGet c8RaiseRecord "sample_size" = PyVal.int (-5) ∧
      validate_extraction c8RaiseRecord = Except.error () := ⟨rfl, rfl⟩

/-- C8 (amended): whenever `sample_size` is a non-null integer `≤ 0` and
the call returns a violation list, that list contains the range violation;
the two §8 end-to-end scenarios hold exactly: `sample_size = -5` yields
exactly the one range violation and `sample_size = 30` yields the empty
list. -/
theorem C8_nonpositive_sample_size :
    (∀ data l, isNone (pyGet data "sample_size") = false →
      isinstance_int (pyGet data "sample_size") = true →
      intVal (pyGet data "sample_size") ≤ 0 →
      validate_extraction data = .ok l → "sample_size must be > 0" ∈ l) ∧
    validate_extraction c8NegRecord = .ok ["sample_size must be > 0"] ∧
    validate_extraction c8PosRecord = .ok [] := by
  refine ⟨?_, rfl, rfl⟩
  intro data l hn hi hle h
  have hss : "sample_size must be > 0" ∈ sampleSizeErrors data :=
    (mem_sampleSizeErrors_range_iff data).mpr ⟨hn, hi, hle⟩
  rcases validate_ok_cases data l h with ⟨-, hl⟩ | ⟨e, e5, e6, -, -, -, hl⟩ <;> subst hl <;>
    exact List.mem_append_left _ (List.mem_append_right _ hss)

/-- C8 (witness): the amended universal statement at the `sample_size = -5`
scenario record. -/
theorem C8_witness : "sample_size must be > 0" ∈ ["sample_size must be > 0"] :=
  C8_nonpositive_sample_size.1 c8NegRecord _ rfl rfl (by decide) rfl

/-- C9: Python booleans pass every integer/numeric type check
(`bool` is a subclass of `int`): `sample_size = True` yields no
sample-size violation (it counts as `1 > 0`); boolean effect-size
sub-fields pass `isinstance(v, (int, float))` and compare exactly like
the integers `1` and `0` in the CI comparisons. -/
theorem C9_bool_counts_as_numeric :
    (∀ data l, pyGet data "sample_size" = PyVal.bool true →
      validate_extraction data = .ok l →
      "sample_size must be an integer or null" ∉ l ∧ "sample_size must be > 0" ∉ l) ∧
    (∀ b, isinstance_int (PyVal.bool b) = true ∧ isinstance_num (PyVal.bool b) = true ∧
      toRatNum (PyVal.bool b) = some (if b then 1 else 0)) ∧
    (∀ b v, pyLe (PyVal.bool b) v = pyLe (PyVal.int (if b then 1 else 0)) v ∧
      pyLe v (PyVal.bool b) = pyLe v (PyVal.int (if b then 1 else 0)) ∧
      pyGt (PyVal.bool b) v = pyGt (PyVal.int (if b then 1 else 0)) v ∧
      pyGt v (PyVal.bool b) = pyGt v (PyVal.int (if b then 1 else 0))) := by
  refine ⟨?_, ?_, ?_⟩
  · intro data l hB h
    have hnil : sampleSizeErrors data = [] :=
      sampleSizeErrors_eq_nil data (Or.inr ⟨by rw [hB]; rfl, by rw [hB]; decide⟩)
    have hd1 : "sample_size must be an integer or null" ∉ MF_MSGS ∧
        "sample_size must be an integer or null" ∉ TAIL_MSGS := by decide
    have hd2 : "sample_size must be > 0" ∉ MF_MSGS ∧
        "sample_size must be > 0" ∉ TAIL_MSGS := by decide
    constructor
    · intro hmem
      rcases validate_ok_mem_split data l h _ hmem with h1 | h2 | h3
      · exact hd1.1 ((missingFieldErrors_sublist data).subset h1)
      · rw [hnil] at h2; simp at h2
      · exact hd1.2 h3
    · intro hmem
      rcases validate_ok_mem_split data l h _ hmem with h1 | h2 | h3
      · exact hd2.1 ((missingFieldErrors_sublist data).subset h1)
      · rw [hnil] at h2; simp at h2
      · exact hd2.2 h3
  · intro b
    cases b <;> exact ⟨rfl, rfl, rfl⟩
  · intro b v
    cases b <;> cases v <;> exact ⟨rfl, rfl, rfl, rfl⟩

/-- C9 (witness): `sample_size = True` at a concrete record — the
returned list contains no sample-size violation. -/
theorem C9_witness :
    "sample_size must be an integer or null" ∉
        ["Missing field: title", "Missing field: study_design", "Missing field: population",
         "Missing field: outcome", "Missing field: effect_size",
         "effect_size must be an object"] ∧
      "sample_size must be > 0" ∉
        ["Missing field: title", "Missing field: study_design", "Missing field: population",
         "Missing field: outcome", "Missing field: effect_size",
         "effect_size must be an object"] :=
  C9_bool_counts_as_numeric.1 [("sample_size", PyVal.bool true)] _ rfl rfl

/-- C10 (counterexample): the claim says every record with a
floating-point `sample_size` gets the type violation emitted.  On
`c10RaiseRecord` (`sample_size = 30.0`, CI bounds `"a"` and `2`) line 132
raises `TypeError`, so no violation list is returned at all. -/
theorem C10_counterexample :
    pyGet c10RaiseRecord "sample_size" = PyVal.float 30 ∧
      validate_extraction c10RaiseRecord = Except.error () := ⟨rfl, rfl⟩

/-- C10 (amended): whenever `sample_size` is a float — including the
integral float `30.0` — and the call returns a violation list, that list
contains the sample-size type violation and never the range violation. -/
theorem C10_float_sample_size (data : PyDict) (l : List String) (q : ℚ)
    (hq : pyGet data "sample_size" = PyVal.float q)
    (h : validate_extraction data = .ok l) :
    "sample_size must be an integer or null" ∈ l ∧ "sample_size must be > 0" ∉ l := by
  have hss := sampleSizeErrors_float data q hq
  constructor
  · have hmem : "sample_size must be an integer or null" ∈ sampleSizeErrors data := by
      rw [hss]; simp
    rcases validate_ok_cases data l h with ⟨-, hl⟩ | ⟨e, e5, e6, -, -, -, hl⟩ <;> subst hl <;>
      exact List.mem_append_left _ (List.mem_append_right _ hmem)
  · intro hmem
    have hd : "sample_size must be > 0" ∉ MF_MSGS ∧
        "sample_size must be > 0" ∉ TAIL_MSGS := by decide
    rcases validate_ok_mem_split data l h _ hmem with h1 | h2 | h3
    · exact hd.1 ((missingFieldErrors_sublist data).subset h1)
    · rw [hss] at h2; simp at h2
    · exact hd.2 h3

/-- C10 (witness): `sample_size = 30.0` at a concrete record — the type
violation is present, the range violation absent. -/
theorem C10_witness :
    "sample_size must be an integer or null" ∈
        ["Missing field: title", "Missing field: study_design", "Missing field: population",
         "Missing field: outcome", "Missing field: effect_size",
         "sample_size must be an integer or null", "effect_size must be an object"] ∧
      "sample_size must be > 0" ∉
        ["Missing field: title", "Missing field: study_design", "Missing field: population",
         "Missing field: outcome", "Missing field: effect_size",
         "sample_size must be an integer or null", "effect_size must be an object"] :=
  C10_float_sample_size [("sample_size", PyVal.float 30)] _ 30 rfl rfl

/-- Step 4 emits the missing-sub-field message for a sub-field exactly
when that key is absent from the effect-size dict. -/
theorem mem_effectMissingErrors_iff (e : PyDict) (k : String) (hk : k ∈ EFFECT_KEYS) :
    (("Missing effect_size field: " ++ k) ∈ effectMissingErrors e) ↔ hasKey e k = false := by
  unfold effectMissingErrors
  simp only [List.mem_map, List.mem_filter]
  constructor
  · rintro ⟨g, ⟨hg, hkey⟩, heq⟩
    have hinj : ∀ g ∈ EFFECT_KEYS, ∀ b ∈ EFFECT_KEYS,
        ("Missing effect_size field: " ++ g = "Missing effect_size field: " ++ b) → g = b := by
      decide
    have hgk := hinj g hg k hk heq
    subst hgk
    simpa using hkey
  · intro hkf
    exact ⟨k, ⟨hk, by simp [hkf]⟩, rfl⟩

/-- Step 5 emits the `value` type message exactly when `value` is non-null
and non-numeric. -/
theorem mem_effectNumericErrors_value_iff (e : PyDict) :
    ("effect_size.value must be numeric or null" ∈ effectNumericErrors e) ↔
      (isNone (pyGet e "value") = false ∧ isinstance_num (pyGet e "value") = false) := by
  unfold effectNumericErrors
  simp only [List.mem_map, List.mem_filter, List.mem_cons, List.not_mem_nil, or_false]
  constructor
  · rintro ⟨p, ⟨hp, hpred⟩, heq⟩
    rcases hp with rfl | rfl | rfl
    · simp at hpred
      exact hpred
    · rw [show ("lower_ci", pyGet e "lower_ci").1 = "lower_ci" from rfl] at heq
      exact absurd heq (by decide)
    · rw [show ("upper_ci", pyGet e "upper_ci").1 = "upper_ci" from rfl] at heq
      exact absurd heq (by decide)
  · rintro ⟨h1, h2⟩
    exact ⟨("value", pyGet e "value"), ⟨Or.inl rfl, by simp [h1, h2]⟩, rfl⟩

/-- Step 5 emits the `lower_ci` type message exactly when `lower_ci` is
non-null and non-numeric. -/
theorem mem_effectNumericErrors_lower_iff (e : PyDict) :
    ("effect_size.lower_ci must be numeric or null" ∈ effectNumericErrors e) ↔
      (isNone (pyGet e "lower_ci") = false ∧ isinstance_num (pyGet e "lower_ci") = false) := by
  unfold effectNumericErrors
  simp only [List.mem_map, List.mem_filter, List.mem_cons, List.not_mem_nil, or_false]
  constructor
  · rintro ⟨p, ⟨hp, hpred⟩, heq⟩
    rcases hp with rfl | rfl | rfl
    · rw [show ("value", pyGet e "value").1 = "value" from rfl] at heq
      exact absurd heq (by decide)
    · simp at hpred
      exact hpred
    · rw [show ("upper_ci", pyGet e "upper_ci").1 = "upper_ci" from rfl] at heq
      exact absurd heq (by decide)
  · rintro ⟨h1, h2⟩
    exact ⟨("lower_ci", pyGet e "lower_ci"), ⟨Or.inr (Or.inl rfl), by simp [h1, h2]⟩, rfl⟩

/-- Step 5 emits the `upper_ci` type message exactly when `upper_ci` is
non-null and non-numeric. -/
theorem mem_effectNumericErrors_upper_iff (e : PyDict) :
    ("effect_size.upper_ci must be numeric or null" ∈ effectNumericErrors e) ↔
      (isNone (pyGet e "upper_ci") = false ∧ isinstance_num (pyGet e "upper_ci") = false) := by
  unfold effectNumericErrors
  simp only [List.mem_map, List.mem_filter, List.mem_cons, List.not_mem_nil, or_false]
  constructor
  · rintro ⟨p, ⟨hp, hpred⟩, heq⟩
    rcases hp with rfl | rfl | rfl
    · rw [show ("value", pyGet e "value").1 = "value" from rfl] at heq
      exact absurd heq (by decide)
    · rw [show ("lower_ci", pyGet e "lower_ci").1 = "lower_ci" from rfl] at heq
      exact absurd heq (by decide)
    · simp at hpred
      exact hpred
  · rintro ⟨h1, h2⟩
    exact ⟨("upper_ci", pyGet e "upper_ci"), ⟨Or.inr (Or.inr rfl), by simp [h1, h2]⟩, rfl⟩

/-- Step 6 emits the ordering message exactly when both CI bounds are
non-null and the Python comparison `lower > upper` returned true. -/
theorem mem_ciOrderingCheck_iff (lower upper : PyVal) (es : List String)
    (h : ciOrderingCheck lower upper = .ok es) :
    ("lower_ci cannot be greater than upper_ci" ∈ es) ↔
      (isNone lower = false ∧ isNone upper = false ∧ pyGt lower upper = .ok true) := by
  unfold ciOrderingCheck at h
  split at h
  case _ hcond =>
    simp at hcond
    split at h
    · exact absurd h (by simp)
    case _ b hb =>
      simp only [Except.ok.injEq] at h
      subst h
      cases b
      · refine iff_of_false (by simp) ?_
        rintro ⟨-, -, hgt⟩
        rw [hb] at hgt
        simp at hgt
      · exact iff_of_true (by simp) ⟨hcond.1, hcond.2, hb⟩
  case _ hcond =>
    simp only [Except.ok.injEq] at h
    subst h
    refine iff_of_false (by simp) ?_
    rintro ⟨h1, h2, -⟩
    exact hcond (by simp [h1, h2])

/-- Step 7 emits the value-in-range message exactly when all three
effect-size numbers are non-null and the Python chained comparison
`lower <= value <= upper` returned false. -/
theorem mem_valueRangeCheck_iff (value lower upper : PyVal) (es : List String)
    (h : valueRangeCheck value lower upper = .ok es) :
    ("effect_size.value must be between lower_ci and upper_ci" ∈ es) ↔
      (isNone value = false ∧ isNone lower = false ∧ isNone upper = false ∧
        pyChainLe lower value upper = .ok false) := by
  unfold valueRangeCheck at h
  split at h
  case _ hcond =>
    simp at hcond
    split at h
    · exact absurd h (by simp)
    case _ b hb =>
      simp only [Except.ok.injEq] at h
      subst h
      cases b
      · exact iff_of_true (by simp) ⟨hcond.1.1, hcond.1.2, hcond.2, hb⟩
      · refine iff_of_false (by simp) ?_
        rintro ⟨-, -, -, hch⟩
        rw [hb] at hch
        simp at hch
  case _ hcond =>
    simp only [Except.ok.injEq] at h
    subst h
    refine iff_of_false (by simp) ?_
    rintro ⟨h1, h2, h3, -⟩
    exact hcond (by simp [h1, h2, h3])

/-- Steps 1 and 2 contribute all of their messages to every normally
returned list — no earlier violation suppresses them. -/
theorem validate_ok_mem_of_steps12 (data : PyDict) (l : List String)
    (h : validate_extraction data = .ok l) :
    (∀ x ∈ missingFieldErrors data, x ∈ l) ∧ (∀ x ∈ sampleSizeErrors data, x ∈ l) := by
  rcases validate_ok_cases data l h with ⟨-, hl⟩ | ⟨e, e5, e6, -, -, -, hl⟩ <;> subst hl <;>
    exact ⟨fun x hx => List.mem_append_left _ (List.mem_append_left _ hx),
           fun x hx => List.mem_append_left _ (List.mem_append_right _ hx)⟩

/-- When `effect_size` is a dict, every message of steps 4–7 reaches the
returned list — no earlier violation suppresses the nested checks. -/
theorem validate_dict_mem_of_nested (data : PyDict) (l : List String)
    (h : validate_extraction data = .ok l) (e : PyDict)
    (hE : pyGet data "effect_size" = PyVal.dict e) :
    (∀ x ∈ effectMissingErrors e, x ∈ l) ∧ (∀ x ∈ effectNumericErrors e, x ∈ l) ∧
    (∀ e5, ciOrderingCheck (pyGet e "lower_ci") (pyGet e "upper_ci") = .ok e5 →
      ∀ x ∈ e5, x ∈ l) ∧
    (∀ e6, valueRangeCheck (pyGet e "value") (pyGet e "lower_ci") (pyGet e "upper_ci") = .ok e6 →
      ∀ x ∈ e6, x ∈ l) := by
  rcases validate_ok_cases data l h with ⟨hnd, -⟩ | ⟨e', e5, e6, hE', h5, h6, hl⟩
  · rw [hE] at hnd
    simp [isinstance_dict] at hnd
  · rw [hE] at hE'
    injection hE' with hee
    rw [← hee] at h5 h6 hl
    subst hl
    refine ⟨?_, ?_, ?_, ?_⟩
    · intro x hx
      exact List.mem_append_right _
        (List.mem_append_left _ (List.mem_append_left _ (List.mem_append_left _ hx)))
    · intro x hx
      exact List.mem_append_right _
        (List.mem_append_left _ (List.mem_append_left _ (List.mem_append_right _ hx)))
    · intro e5' h5' x hx
      have he : e5 = e5' := by
        have := h5.symm.trans h5'
        injection this
      rw [← he] at hx
      exact List.mem_append_right _ (List.mem_append_left _ (List.mem_append_right _ hx))
    · intro e6' h6' x hx
      have he : e6 = e6' := by
        have := h6.symm.trans h6'
        injection this
      rw [← he] at hx
      exact List.mem_append_right _ (List.mem_append_right _ hx)

/-- When `effect_size` is a dict, every element of a returned list stems
from one of the six check stages. -/
theorem validate_dict_mem_split (data : PyDict) (l : List String)
    (h : validate_extraction data = .ok l) (e : PyDict)
    (hE : pyGet data "effect_size" = PyVal.dict e) (x : String) (hx : x ∈ l) :
    x ∈ missingFieldErrors data ∨ x ∈ sampleSizeErrors data ∨ x ∈ effectMissingErrors e ∨
    x ∈ effectNumericErrors e ∨
    (∃ e5, ciOrderingCheck (pyGet e "lower_ci") (pyGet e "upper_ci") = .ok e5 ∧ x ∈ e5) ∨
    (∃ e6, valueRangeCheck (pyGet e "value") (pyGet e "lower_ci") (pyGet e "upper_ci") =
      .ok e6 ∧ x ∈ e6) := by
  rcases validate_ok_cases data l h with ⟨hnd, -⟩ | ⟨e', e5, e6, hE', h5, h6, hl⟩
  · rw [hE] at hnd
    simp [isinstance_dict] at hnd
  · rw [hE] at hE'
    injection hE' with hee
    rw [← hee] at h5 h6 hl
    subst hl
    rcases List.mem_append.mp hx with h12 | h36
    · rcases List.mem_append.mp h12 with h1 | h2
      · exact Or.inl h1
      · exact Or.inr (Or.inl h2)
    · rcases List.mem_append.mp h36 with h35 | h6'
      · rcases List.mem_append.mp h35 with h34 | h5'
        · rcases List.mem_append.mp h34 with h3 | h4
          · exact Or.inr (Or.inr (Or.inl h3))
          · exact Or.inr (Or.inr (Or.inr (Or.inl h4)))
        · exact Or.inr (Or.inr (Or.inr (Or.inr (Or.inl ⟨e5, h5, h5'⟩))))
      · exact Or.inr (Or.inr (Or.inr (Or.inr (Or.inr ⟨e6, h6, h6'⟩))))

/-- Each step-1 message appears in a returned list exactly when its key is
absent, independently of every other field. -/
theorem validate_ok_missing_iff (data : PyDict) (l : List String)
    (h : validate_extraction data = .ok l) (f : String) (hf : f ∈ REQUIRED_FIELDS) :
    (("Missing field: " ++ f) ∈ l ↔ hasKey data f = false) := by
  have hdec_ss : ∀ g ∈ REQUIRED_FIELDS, ("Missing field: " ++ g) ∉ SS_MSGS := by decide
  have hdec_tail : ∀ g ∈ REQUIRED_FIELDS, ("Missing field: " ++ g) ∉ TAIL_MSGS := by decide
  constructor
  · intro hx
    rcases validate_ok_mem_split data l h _ hx with h1 | h2 | h3
    · exact (mem_missingFieldErrors_iff data f hf).mp h1
    · exact absurd ((sampleSizeErrors_sublist data).subset h2) (hdec_ss f hf)
    · exact absurd h3 (hdec_tail f hf)
  · intro hk
    exact (validate_ok_mem_of_steps12 data l h).1 _
      ((mem_missingFieldErrors_iff data f hf).mpr hk)

/-- The step-2 type message appears in a returned list exactly when
`sample_size` is non-null and not an integer, independently of every
other field. -/
theorem validate_ok_type_iff (data : PyDict) (l : List String)
    (h : validate_extraction data = .ok l) :
    ("sample_size must be an integer or null" ∈ l ↔
      (isNone (pyGet data "sample_size") = false ∧
        isinstance_int (pyGet data "sample_size") = false)) := by
  have hdec_mf : "sample_size must be an integer or null" ∉ MF_MSGS := by decide
  have hdec_tail : "sample_size must be an integer or null" ∉ TAIL_MSGS := by decide
  constructor
  · intro hx
    rcases validate_ok_mem_split data l h _ hx with h1 | h2 | h3
    · exact absurd ((missingFieldErrors_sublist data).subset h1) hdec_mf
    · exact (mem_sampleSizeErrors_type_iff data).mp h2
    · exact absurd h3 hdec_tail
  · intro hc
    exact (validate_ok_mem_of_steps12 data l h).2 _
      ((mem_sampleSizeErrors_type_iff data).mpr hc)

/-- The step-2 range message appears in a returned list exactly when
`sample_size` is a non-null integer `≤ 0`, independently of every other
field. -/
theorem validate_ok_range_iff (data : PyDict) (l : List String)
    (h : validate_extraction data = .ok l) :
    ("sample_size must be > 0" ∈ l ↔
      (isNone (pyGet data "sample_size") = false ∧
        isinstance_int (pyGet data "sample_size") = true ∧
        intVal (pyGet data "sample_size") ≤ 0)) := by
  have hdec_mf : "sample_size must be > 0" ∉ MF_MSGS := by decide
  have hdec_tail : "sample_size must be > 0" ∉ TAIL_MSGS := by decide
  constructor
  · intro hx
    rcases validate_ok_mem_split data l h _ hx with h1 | h2 | h3
    · exact absurd ((missingFieldErrors_sublist data).subset h1) hdec_mf
    · exact (mem_sampleSizeErrors_range_iff data).mp h2
    · exact absurd h3 hdec_tail
  · intro hc
    exact (validate_ok_mem_of_steps12 data l h).2 _
      ((mem_sampleSizeErrors_range_iff data).mpr hc)

/-- The step-3 shape message appears in a returned list exactly when
`effect_size` is not a dict, independently of every other field. -/
theorem validate_ok_shape_iff (data : PyDict) (l : List String)
    (h : validate_extraction data = .ok l) :
    ("effect_size must be an object" ∈ l ↔
      isinstance_dict (pyGet data "effect_size") = false) := by
  have hdec_mf : "effect_size must be an object" ∉ MF_MSGS := by decide
  have hdec_ss : "effect_size must be an object" ∉ SS_MSGS := by decide
  have hdec_em : "effect_size must be an object" ∉ EM_MSGS := by decide
  have hdec_en : "effect_size must be an object" ∉ EN_MSGS := by decide
  have hdec_ci : ¬ "effect_size must be an object" =
      "lower_ci cannot be greater than upper_ci" := by decide
  have hdec_vr : ¬ "effect_size must be an object" =
      "effect_size.value must be between lower_ci and upper_ci" := by decide
  rcases validate_ok_cases data l h with ⟨hnd, hl⟩ | ⟨e, e5, e6, hE, h5, h6, -⟩
  · subst hl
    simp only [List.mem_append, List.mem_singleton]
    exact iff_of_true (Or.inr trivial) hnd
  · refine iff_of_false ?_ ?_
    · intro hmem
      rcases validate_dict_mem_split data l h e hE _ hmem with
        h1 | h2 | h3 | h4 | ⟨e5', h5', hx5⟩ | ⟨e6', h6', hx6⟩
      · exact hdec_mf ((missingFieldErrors_sublist data).subset h1)
      · exact hdec_ss ((sampleSizeErrors_sublist data).subset h2)
      · exact hdec_em ((effectMissingErrors_sublist e).subset h3)
      · exact hdec_en ((effectNumericErrors_sublist e).subset h4)
      · have := (ciOrderingCheck_ok_sublist _ _ _ h5').subset hx5
        simp only [List.mem_singleton] at this
        exact hdec_ci this
      · have := (valueRangeCheck_ok_sublist _ _ _ _ h6').subset hx6
        simp only [List.mem_singleton] at this
        exact hdec_vr this
    · rw [hE]
      simp [isinstance_dict]

/-- Each step-4 message appears in a returned list exactly when
`effect_size` is a dict lacking that sub-field key, independently of
every other field. -/
theorem validate_ok_effect_missing_iff (data : PyDict) (l : List String)
    (h : validate_extraction data = .ok l) (k : String) (hk : k ∈ EFFECT_KEYS) :
    (("Missing effect_size field: " ++ k) ∈ l ↔
      ∃ e, pyGet data "effect_size" = PyVal.dict e ∧ hasKey e k = false) := by
  have hdec_mf : ∀ g ∈ EFFECT_KEYS, ("Missing effect_size field: " ++ g) ∉ MF_MSGS := by decide
  have hdec_ss : ∀ g ∈ EFFECT_KEYS, ("Missing effect_size field: " ++ g) ∉ SS_MSGS := by decide
  have hdec_en : ∀ g ∈ EFFECT_KEYS, ("Missing effect_size field: " ++ g) ∉ EN_MSGS := by decide
  have hdec_shape : ∀ g ∈ EFFECT_KEYS,
      ¬ ("Missing effect_size field: " ++ g) = "effect_size must be an object" := by decide
  have hdec_ci : ∀ g ∈ EFFECT_KEYS,
      ¬ ("Missing effect_size field: " ++ g) = "lower_ci cannot be greater than upper_ci" := by
    decide
  have hdec_vr : ∀ g ∈ EFFECT_KEYS,
      ¬ ("Missing effect_size field: " ++ g) =
        "effect_size.value must be between lower_ci and upper_ci" := by decide
  constructor
  · intro hx
    rcases validate_ok_cases data l h with ⟨hnd, hl⟩ | ⟨e, e5, e6, hE, h5, h6, -⟩
    · exfalso
      subst hl
      rcases List.mem_append.mp hx with h12 | h3
      · rcases List.mem_append.mp h12 with h1 | h2
        · exact hdec_mf k hk ((missingFieldErrors_sublist data).subset h1)
        · exact hdec_ss k hk ((sampleSizeErrors_sublist data).subset h2)
      · exact hdec_shape k hk (List.mem_singleton.mp h3)
    · refine ⟨e, hE, ?_⟩
      rcases validate_dict_mem_split data l h e hE _ hx with
        h1 | h2 | h3 | h4 | ⟨e5', h5', hx5⟩ | ⟨e6', h6', hx6⟩
      · exact absurd ((missingFieldErrors_sublist data).subset h1) (hdec_mf k hk)
      · exact absurd ((sampleSizeErrors_sublist data).subset h2) (hdec_ss k hk)
      · exact (mem_effectMissingErrors_iff e k hk).mp h3
      · exact absurd ((effectNumericErrors_sublist e).subset h4) (hdec_en k hk)
      · have := (ciOrderingCheck_ok_sublist _ _ _ h5').subset hx5
        simp only [List.mem_singleton] at this
        exact absurd this (hdec_ci k hk)
      · have := (valueRangeCheck_ok_sublist _ _ _ _ h6').subset hx6
        simp only [List.mem_singleton] at this
        exact absurd this (hdec_vr k hk)
  · rintro ⟨e, hE, hke⟩
    exact (validate_dict_mem_of_nested data l h e hE).1 _
      ((mem_effectMissingErrors_iff e k hk).mpr hke)

/-- The step-5 `value` type message appears in a returned list exactly
when `effect_size` is a dict whose `value` is non-null and non-numeric,
independently of every other field. -/
theorem validate_ok_numeric_value_iff (data : PyDict) (l : List String)
    (h : validate_extraction data = .ok l) :
    ("effect_size.value must be numeric or null" ∈ l ↔
      ∃ e, pyGet data "effect_size" = PyVal.dict e ∧
        isNone (pyGet e "value") = false ∧ isinstance_num (pyGet e "value") = false) := by
  have hdec_mf : "effect_size.value must be numeric or null" ∉ MF_MSGS := by decide
  have hdec_ss : "effect_size.value must be numeric or null" ∉ SS_MSGS := by decide
  have hdec_em : "effect_size.value must be numeric or null" ∉ EM_MSGS := by decide
  have hdec_shape : ¬ "effect_size.value must be numeric or null" =
      "effect_size must be an object" := by decide
  have hdec_ci : ¬ "effect_size.value must be numeric or null" =
      "lower_ci cannot be greater than upper_ci" := by decide
  have hdec_vr : ¬ "effect_size.value must be numeric or null" =
      "effect_size.value must be between lower_ci and upper_ci" := by decide
  constructor
  · intro hx
    rcases validate_ok_cases data l h with ⟨hnd, hl⟩ | ⟨e, e5, e6, hE, h5, h6, -⟩
    · exfalso
      subst hl
      rcases List.mem_append.mp hx with h12 | h3
      · rcases List.mem_append.mp h12 with h1 | h2
        · exact hdec_mf ((missingFieldErrors_sublist data).subset h1)
        · exact hdec_ss ((sampleSizeErrors_sublist data).subset h2)
      · exact hdec_shape (List.mem_singleton.mp h3)
    · refine ⟨e, hE, ?_⟩
      rcases validate_dict_mem_split data l h e hE _ hx with
        h1 | h2 | h3 | h4 | ⟨e5', h5', hx5⟩ | ⟨e6', h6', hx6⟩
      · exact absurd ((missingFieldErrors_sublist data).subset h1) hdec_mf
      · exact absurd ((sampleSizeErrors_sublist data).subset h2) hdec_ss
      · exact absurd ((effectMissingErrors_sublist e).subset h3) hdec_em
      · exact (mem_effectNumericErrors_value_iff e).mp h4
      · have := (ciOrderingCheck_ok_sublist _ _ _ h5').subset hx5
        simp only [List.mem_singleton] at this
        exact absurd this hdec_ci
      · have := (valueRangeCheck_ok_sublist _ _ _ _ h6').subset hx6
        simp only [List.mem_singleton] at this
        exact absurd this hdec_vr
  · rintro ⟨e, hE, h1, h2⟩
    exact (validate_dict_mem_of_nested data l h e hE).2.1 _
      ((mem_effectNumericErrors_value_iff e).mpr ⟨h1, h2⟩)

/-- The step-5 `lower_ci` type message appears in a returned list exactly
when `effect_size` is a dict whose `lower_ci` is non-null and non-numeric,
independently of every other field. -/
theorem validate_ok_numeric_lower_iff (data : PyDict) (l : List String)
    (h : validate_extraction data = .ok l) :
    ("effect_size.lower_ci must be numeric or null" ∈ l ↔
      ∃ e, pyGet data "effect_size" = PyVal.dict e ∧
        isNone (pyGet e "lower_ci") = false ∧ isinstance_num (pyGet e "lower_ci") = false) := by
  have hdec_mf : "effect_size.lower_ci must be numeric or null" ∉ MF_MSGS := by decide
  have hdec_ss : "effect_size.lower_ci must be numeric or null" ∉ SS_MSGS := by decide
  have hdec_em : "effect_size.lower_ci must be numeric or null" ∉ EM_MSGS := by decide
  have hdec_shape : ¬ "effect_size.lower_ci must be numeric or null" =
      "effect_size must be an object" := by decide
  have hdec_ci : ¬ "effect_size.lower_ci must be numeric or null" =
      "lower_ci cannot be greater than upper_ci" := by decide
  have hdec_vr : ¬ "effect_size.lower_ci must be numeric or null" =
      "effect_size.value must be between lower_ci and upper_ci" := by decide
  constructor
  · intro hx
    rcases validate_ok_cases data l h with ⟨hnd, hl⟩ | ⟨e, e5, e6, hE, h5, h6, -⟩
    · exfalso
      subst hl
      rcases List.mem_append.mp hx with h12 | h3
      · rcases List.mem_append.mp h12 with h1 | h2
        · exact hdec_mf ((missingFieldErrors_sublist data).subset h1)
        · exact hdec_ss ((sampleSizeErrors_sublist data).subset h2)
      · exact hdec_shape (List.mem_singleton.mp h3)
    · refine ⟨e, hE, ?_⟩
      rcases validate_dict_mem_split data l h e hE _ hx with
        h1 | h2 | h3 | h4 | ⟨e5', h5', hx5⟩ | ⟨e6', h6', hx6⟩
      · exact absurd ((missingFieldErrors_sublist data).subset h1) hdec_mf
      · exact absurd ((sampleSizeErrors_sublist data).subset h2) hdec_ss
      · exact absurd ((effectMissingErrors_sublist e).subset h3) hdec_em
      · exact (mem_effectNumericErrors_lower_iff e).mp h4
      · have := (ciOrderingCheck_ok_sublist _ _ _ h5').subset hx5
        simp only [List.mem_singleton] at this
        exact absurd this hdec_ci
      · have := (valueRangeCheck_ok_sublist _ _ _ _ h6').subset hx6
        simp only [List.mem_singleton] at this
        exact absurd this hdec_vr
  · rintro ⟨e, hE, h1, h2⟩
    exact (validate_dict_mem_of_nested data l h e hE).2.1 _
      ((mem_effectNumericErrors_lower_iff e).mpr ⟨h1, h2⟩)

/-- The step-5 `upper_ci` type message appears in a returned list exactly
when `effect_size` is a dict whose `upper_ci` is non-null and non-numeric,
independently of every other field. -/
theorem validate_ok_numeric_upper_iff (data : PyDict) (l : List String)
    (h : validate_extraction data = .ok l) :
    ("effect_size.upper_ci must be numeric or null" ∈ l ↔
      ∃ e, pyGet data "effect_size" = PyVal.dict e ∧
        isNone (pyGet e "upper_ci") = false ∧ isinstance_num (pyGet e "upper_ci") = false) := by
  have hdec_mf : "effect_size.upper_ci must be numeric or null" ∉ MF_MSGS := by decide
  have hdec_ss : "effect_size.upper_ci must be numeric or null" ∉ SS_MSGS := by decide
  have hdec_em : "effect_size.upper_ci must be numeric or null" ∉ EM_MSGS := by decide
  have hdec_shape : ¬ "effect_size.upper_ci must be numeric or null" =
      "effect_size must be an object" := by decide
  have hdec_ci : ¬ "effect_size.upper_ci must be numeric or null" =
      "lower_ci cannot be greater than upper_ci" := by decide
  have hdec_vr : ¬ "effect_size.upper_ci must be numeric or null" =
      "effect_size.value must be between lower_ci and upper_ci" := by decide
  constructor
  · intro hx
    rcases validate_ok_cases data l h with ⟨hnd, hl⟩ | ⟨e, e5, e6, hE, h5, h6, -⟩
    · exfalso
      subst hl
      rcases List.mem_append.mp hx with h12 | h3
      · rcases List.mem_append.mp h12 with h1 | h2
        · exact hdec_mf ((missingFieldErrors_sublist data).subset h1)
        · exact hdec_ss ((sampleSizeErrors_sublist data).subset h2)
      · exact hdec_shape (List.mem_singleton.mp h3)
    · refine ⟨e, hE, ?_⟩
      rcases validate_dict_mem_split data l h e hE _ hx with
        h1 | h2 | h3 | h4 | ⟨e5', h5', hx5⟩ | ⟨e6', h6', hx6⟩
      · exact absurd ((missingFieldErrors_sublist data).subset h1) hdec_mf
      · exact absurd ((sampleSizeErrors_sublist data).subset h2) hdec_ss
      · exact absurd ((effectMissingErrors_sublist e).subset h3) hdec_em
      · exact (mem_effectNumericErrors_upper_iff e).mp h4
      · have := (ciOrderingCheck_ok_sublist _ _ _ h5').subset hx5
        simp only [List.mem_singleton] at this
        exact absurd this hdec_ci
      · have := (valueRangeCheck_ok_sublist _ _ _ _ h6').subset hx6
        simp only [List.mem_singleton] at this
        exact absurd this hdec_vr
  · rintro ⟨e, hE, h1, h2⟩
    exact (validate_dict_mem_of_nested data l h e hE).2.1 _
      ((mem_effectNumericErrors_upper_iff e).mpr ⟨h1, h2⟩)

/-- The step-6 ordering message appears in a returned list exactly when
`effect_size` is a dict with non-null CI bounds for which the Python
comparison `lower > upper` returned true, independently of every other
field. -/
theorem validate_ok_ci_iff (data : PyDict) (l : List String)
    (h : validate_extraction data = .ok l) :
    ("lower_ci cannot be greater than upper_ci" ∈ l ↔
      ∃ e, pyGet data "effect_size" = PyVal.dict e ∧
        isNone (pyGet e "lower_ci") = false ∧ isNone (pyGet e "upper_ci") = false ∧
        pyGt (pyGet e "lower_ci") (pyGet e "upper_ci") = .ok true) := by
  have hdec_mf : "lower_ci cannot be greater than upper_ci" ∉ MF_MSGS := by decide
  have hdec_ss : "lower_ci cannot be greater than upper_ci" ∉ SS_MSGS := by decide
  have hdec_em : "lower_ci cannot be greater than upper_ci" ∉ EM_MSGS := by decide
  have hdec_en : "lower_ci cannot be greater than upper_ci" ∉ EN_MSGS := by decide
  have hdec_shape : ¬ "lower_ci cannot be greater than upper_ci" =
      "effect_size must be an object" := by decide
  have hdec_vr : ¬ "lower_ci cannot be greater than upper_ci" =
      "effect_size.value must be between lower_ci and upper_ci" := by decide
  constructor
  · intro hx
    rcases validate_ok_cases data l h with ⟨hnd, hl⟩ | ⟨e, e5, e6, hE, h5, h6, -⟩
    · exfalso
      subst hl
      rcases List.mem_append.mp hx with h12 | h3
      · rcases List.mem_append.mp h12 with h1 | h2
        · exact hdec_mf ((missingFieldErrors_sublist data).subset h1)
        · exact hdec_ss ((sampleSizeErrors_sublist data).subset h2)
      · exact hdec_shape (List.mem_singleton.mp h3)
    · refine ⟨e, hE, ?_⟩
      rcases validate_dict_mem_split data l h e hE _ hx with
        h1 | h2 | h3 | h4 | ⟨e5', h5', hx5⟩ | ⟨e6', h6', hx6⟩
      · exact absurd ((missingFieldErrors_sublist data).subset h1) hdec_mf
      · exact absurd ((sampleSizeErrors_sublist data).subset h2) hdec_ss
      · exact absurd ((effectMissingErrors_sublist e).subset h3) hdec_em
      · exact absurd ((effectNumericErrors_sublist e).subset h4) hdec_en
      · exact (mem_ciOrderingCheck_iff _ _ _ h5').mp hx5
      · have := (valueRangeCheck_ok_sublist _ _ _ _ h6').subset hx6
        simp only [List.mem_singleton] at this
        exact absurd this hdec_vr
  · rintro ⟨e, hE, h1, h2, hgt⟩
    have h5 : ciOrderingCheck (pyGet e "lower_ci") (pyGet e "upper_ci") =
        .ok ["lower_ci cannot be greater than upper_ci"] := by
      unfold ciOrderingCheck
      rw [h1, h2, hgt]
      rfl
    exact (validate_dict_mem_of_nested data l h e hE).2.2.1 _ h5 _ (by simp)

/-- The step-7 value-in-range message appears in a returned list exactly
when `effect_size` is a dict with non-null `value` and CI bounds for which
the Python chained comparison `lower <= value <= upper` returned false,
independently of every other field. -/
theorem validate_ok_vr_iff (data : PyDict) (l : List String)
    (h : validate_extraction data = .ok l) :
    ("effect_size.value must be between lower_ci and upper_ci" ∈ l ↔
      ∃ e, pyGet data "effect_size" = PyVal.dict e ∧
        isNone (pyGet e "value") = false ∧ isNone (pyGet e "lower_ci") = false ∧
        isNone (pyGet e "upper_ci") = false ∧
        pyChainLe (pyGet e "lower_ci") (pyGet e "value") (pyGet e "upper_ci") =
          .ok false) := by
  have hdec_mf : "effect_size.value must be between lower_ci and upper_ci" ∉ MF_MSGS := by
    decide
  have hdec_ss : "effect_size.value must be between lower_ci and upper_ci" ∉ SS_MSGS := by
    decide
  have hdec_em : "effect_size.value must be between lower_ci and upper_ci" ∉ EM_MSGS := by
    decide
  have hdec_en : "effect_size.value must be between lower_ci and upper_ci" ∉ EN_MSGS := by
    decide
  have hdec_shape : ¬ "effect_size.value must be between lower_ci and upper_ci" =
      "effect_size must be an object" := by decide
  have hdec_ci : ¬ "effect_size.value must be between lower_ci and upper_ci" =
      "lower_ci cannot be greater than upper_ci" := by decide
  constructor
  · intro hx
    rcases validate_ok_cases data l h with ⟨hnd, hl⟩ | ⟨e, e5, e6, hE, h5, h6, -⟩
    · exfalso
      subst hl
      rcases List.mem_append.mp hx with h12 | h3
      · rcases List.mem_append.mp h12 with h1 | h2
        · exact hdec_mf ((missingFieldErrors_sublist data).subset h1)
        · exact hdec_ss ((sampleSizeErrors_sublist data).subset h2)
      · exact hdec_shape (List.mem_singleton.mp h3)
    · refine ⟨e, hE, ?_⟩
      rcases validate_dict_mem_split data l h e hE _ hx with
        h1 | h2 | h3 | h4 | ⟨e5', h5', hx5⟩ | ⟨e6', h6', hx6⟩
      · exact absurd ((missingFieldErrors_sublist data).subset h1) hdec_mf
      · exact absurd ((sampleSizeErrors_sublist data).subset h2) hdec_ss
      · exact absurd ((effectMissingErrors_sublist e).subset h3) hdec_em
      · exact absurd ((effectNumericErrors_sublist e).subset h4) hdec_en
      · have := (ciOrderingCheck_ok_sublist _ _ _ h5').subset hx5
        simp only [List.mem_singleton] at this
        exact absurd this hdec_ci
      · exact (mem_valueRangeCheck_iff _ _ _ _ h6').mp hx6
  · rintro ⟨e, hE, h1, h2, h3, hch⟩
    have h6 : valueRangeCheck (pyGet e "value") (pyGet e "lower_ci") (pyGet e "upper_ci") =
        .ok ["effect_size.value must be between lower_ci and upper_ci"] := by
      unfold valueRangeCheck
      rw [h1, h2, h3, hch]
      rfl
    exact (validate_dict_mem_of_nested data l h e hE).2.2.2 _ h6 _ (by simp)

/-- C5: every returned violation list is ordered by the fixed check
sequence (`msgRank` over the eighteen messages), and all checks always
run — there is no short-circuiting on earlier failures: each of the
eighteen possible messages (step-1 missing field for each of the six
required keys, step-2 sample-size type and range, step-3 shape, step-4
missing sub-field for each of the four sub-keys, step-5 numeric type for
`value`/`lower_ci`/`upper_ci`, step-6 CI ordering, step-7 value-in-range)
appears in the list exactly when its own check condition holds on the
record, independently of every other field and of all other violations.
The only exception is the documented skip: the nested conditions of
steps 4–7 each require `effect_size` to be a dict. -/
theorem C5_fixed_check_sequence (data : PyDict) (l : List String)
    (h : validate_extraction data = .ok l) :
    List.Pairwise (fun a b => msgRank a ≤ msgRank b) l ∧
    (∀ f ∈ REQUIRED_FIELDS, (("Missing field: " ++ f) ∈ l ↔ hasKey data f = false)) ∧
    ("sample_size must be an integer or null" ∈ l ↔
      (isNone (pyGet data "sample_size") = false ∧
        isinstance_int (pyGet data "sample_size") = false)) ∧
    ("sample_size must be > 0" ∈ l ↔
      (isNone (pyGet data "sample_size") = false ∧
        isinstance_int (pyGet data "sample_size") = true ∧
        intVal (pyGet data "sample_size") ≤ 0)) ∧
    ("effect_size must be an object" ∈ l ↔
      isinstance_dict (pyGet data "effect_size") = false) ∧
    (∀ k ∈ EFFECT_KEYS, (("Missing effect_size field: " ++ k) ∈ l ↔
      ∃ e, pyGet data "effect_size" = PyVal.dict e ∧ hasKey e k = false)) ∧
    ("effect_size.value must be numeric or null" ∈ l ↔
      ∃ e, pyGet data "effect_size" = PyVal.dict e ∧
        isNone (pyGet e "value") = false ∧ isinstance_num (pyGet e "value") = false) ∧
    ("effect_size.lower_ci must be numeric or null" ∈ l ↔
      ∃ e, pyGet data "effect_size" = PyVal.dict e ∧
        isNone (pyGet e "lower_ci") = false ∧
        isinstance_num (pyGet e "lower_ci") = false) ∧
    ("effect_size.upper_ci must be numeric or null" ∈ l ↔
      ∃ e, pyGet data "effect_size" = PyVal.dict e ∧
        isNone (pyGet e "upper_ci") = false ∧
        isinstance_num (pyGet e "upper_ci") = false) ∧
    ("lower_ci cannot be greater than upper_ci" ∈ l ↔
      ∃ e, pyGet data "effect_size" = PyVal.dict e ∧
        isNone (pyGet e "lower_ci") = false ∧ isNone (pyGet e "upper_ci") = false ∧
        pyGt (pyGet e "lower_ci") (pyGet e "upper_ci") = .ok true) ∧
    ("effect_size.value must be between lower_ci and upper_ci" ∈ l ↔
      ∃ e, pyGet data "effect_size" = PyVal.dict e ∧
        isNone (pyGet e "value") = false ∧ isNone (pyGet e "lower_ci") = false ∧
        isNone (pyGet e "upper_ci") = false ∧
        pyChainLe (pyGet e "lower_ci") (pyGet e "value") (pyGet e "upper_ci") =
          .ok false) :=
  ⟨allMsgs_pairwise.sublist (validate_ok_sublist data l h),
   fun f hf => validate_ok_missing_iff data l h f hf,
   validate_ok_type_iff data l h,
   validate_ok_range_iff data l h,
   validate_ok_shape_iff data l h,
   fun k hk => validate_ok_effect_missing_iff data l h k hk,
   validate_ok_numeric_value_iff data l h,
   validate_ok_numeric_lower_iff data l h,
   validate_ok_numeric_upper_iff data l h,
   validate_ok_ci_iff data l h,
   validate_ok_vr_iff data l h⟩

/-- C5 (witness): the full characterization at the §8 record missing
`outcome` with the string `"high"` as `effect_size`, whose returned list
is `c5List`. -/
theorem C5_witness :
    List.Pairwise (fun a b => msgRank a ≤ msgRank b) c5List ∧
    (∀ f ∈ REQUIRED_FIELDS, (("Missing field: " ++ f) ∈ c5List ↔
      hasKey c5Record f = false)) ∧
    ("sample_size must be an integer or null" ∈ c5List ↔
      (isNone (pyGet c5Record "sample_size") = false ∧
        isinstance_int (pyGet c5Record "sample_size") = false)) ∧
    ("sample_size must be > 0" ∈ c5List ↔
      (isNone (pyGet c5Record "sample_size") = false ∧
        isinstance_int (pyGet c5Record "sample_size") = true ∧
        intVal (pyGet c5Record "sample_size") ≤ 0)) ∧
    ("effect_size must be an object" ∈ c5List ↔
      isinstance_dict (pyGet c5Record "effect_size") = false) ∧
    (∀ k ∈ EFFECT_KEYS, (("Missing effect_size field: " ++ k) ∈ c5List ↔
      ∃ e, pyGet c5Record "effect_size" = PyVal.dict e ∧ hasKey e k = false)) ∧
    ("effect_size.value must be numeric or null" ∈ c5List ↔
      ∃ e, pyGet c5Record "effect_size" = PyVal.dict e ∧
        isNone (pyGet e "value") = false ∧ isinstance_num (pyGet e "value") = false) ∧
    ("effect_size.lower_ci must be numeric or null" ∈ c5List ↔
      ∃ e, pyGet c5Record "effect_size" = PyVal.dict e ∧
        isNone (pyGet e "lower_ci") = false ∧
        isinstance_num (pyGet e "lower_ci") = false) ∧
    ("effect_size.upper_ci must be numeric or null" ∈ c5List ↔
      ∃ e, pyGet c5Record "effect_size" = PyVal.dict e ∧
        isNone (pyGet e "upper_ci") = false ∧
        isinstance_num (pyGet e "upper_ci") = false) ∧
    ("lower_ci cannot be greater than upper_ci" ∈ c5List ↔
      ∃ e, pyGet c5Record "effect_size" = PyVal.dict e ∧
        isNone (pyGet e "lower_ci") = false ∧ isNone (pyGet e "upper_ci") = false ∧
        pyGt (pyGet e "lower_ci") (pyGet e "upper_ci") = .ok true) ∧
    ("effect_size.value must be between lower_ci and upper_ci" ∈ c5List ↔
      ∃ e, pyGet c5Record "effect_size" = PyVal.dict e ∧
        isNone (pyGet e "value") = false ∧ isNone (pyGet e "lower_ci") = false ∧
        isNone (pyGet e "upper_ci") = false ∧
        pyChainLe (pyGet e "lower_ci") (pyGet e "value") (pyGet e "upper_ci") =
          .ok false) :=
  C5_fixed_check_sequence c5Record c5List rfl
